import Mathlib

/-!
Shallow embedding of `src/genro_toolbox/treestore.py` (TreeStore, TreeStoreNode,
TreeStoreBuilder, valid_children, _parse_cardinality) for checking the
natural-language specification against the code.

Conventions of the embedding:
* Python scalar values are modelled by `Scalar`.
* A `TreeStore` is its ordered `nodes` dict; since every `TreeStoreNode` carries
  its own label and value (scalar, or a nested `TreeStore` for branches), a
  store is a `List TSNode` and a node is the rose-tree inductive `TSNode`.
* Python `dict` update semantics (`d[k] = v` keeps the original position of an
  existing key, otherwise appends) are modelled by `aset`; `aget` is `d.get(k)`.
* The builder's mutable cursor (`self._current`) is modelled by the list of
  labels from the cursor store up to the root store (cursor label first, like
  the parent chain itself); labels are unique per level, so the path
  identifies the cursor.  Navigation from the root follows `path.reverse`.
  The back-reference chain that `TreeStore.depth` walks is modelled by
  `ParentChain`.
* Methods that `raise` are modelled with `Except TSError` / `Option TSError`.
-/

namespace TreeStorePy

/-- Python scalar values that appear as node values and attribute values. -/
inductive Scalar where
  | str (s : String)
  | int (n : Int)
  | bool (b : Bool)
  | null
deriving DecidableEq, Repr

/-- Result values of `TreeStore.as_dict`: a scalar, or a nested plain dict. -/
inductive DVal where
  | scalar (v : Scalar)
  | map (entries : List (String × DVal))
deriving Repr

/-- `d.get(k)` on a Python dict modelled as an ordered association list. -/
def aget {K V : Type} [DecidableEq K] : List (K × V) → K → Option V
  | [], _ => none
  | (k', v) :: rest, k => if k' = k then some v else aget rest k

/-- `d[k] = v` on a Python dict: replace in place if the key exists, else
append at the end. -/
def aset {K V : Type} [DecidableEq K] : List (K × V) → K → V → List (K × V)
  | [], k, v => [(k, v)]
  | (k', v') :: rest, k, v =>
      if k' = k then (k, v) :: rest else (k', v') :: aset rest k v

/-- `{**a, **b}` / iterated `result[k] = v`: fold `aset` of `b`'s entries
over `a` (later keys of `b` override same-named keys of `a`). -/
def dictMerge {K V : Type} [DecidableEq K] (a b : List (K × V)) : List (K × V) :=
  b.foldl (fun acc p => aset acc p.1 p.2) a

/-- Attribute dicts: label → scalar, in insertion order. -/
abbrev Attrs := List (String × Scalar)

/-- A `TreeStoreNode`: `leafN label attr value` is a node whose `value` is a
scalar (`is_leaf`); `branchN label attr children` is a node whose `value` is a
`TreeStore` (`is_branch`), the store being its ordered node list. -/
inductive TSNode where
  | leafN (label : String) (attr : Attrs) (v : Scalar)
  | branchN (label : String) (attr : Attrs) (children : List TSNode)
deriving Repr

/-- The `label` slot of a `TreeStoreNode`. -/
def TSNode.label : TSNode → String
  | .leafN l _ _ => l
  | .branchN l _ _ => l

/-- The `attr` slot of a `TreeStoreNode`. -/
def TSNode.attr : TSNode → Attrs
  | .leafN _ a _ => a
  | .branchN _ a _ => a

/-- `TreeStore.nodes[label] = node` (dict update: replace at the original
position when the label exists, else append). -/
def insertNode : List TSNode → TSNode → List TSNode
  | [], n => [n]
  | m :: rest, n =>
      if m.label = n.label then n :: rest else m :: insertNode rest n

/-- Inject an attribute dict into the `as_dict` result type. -/
def attrD (a : Attrs) : List (String × DVal) :=
  a.map (fun p => (p.1, DVal.scalar p.2))

mutual

/-- The per-node projection inside `TreeStore.as_dict`: a leaf projects to its
scalar value; a branch projects to its children's dict, merged over the node's
attributes when the attribute dict is non-empty (`{**node.attr, **child_dict}`). -/
def projNode : TSNode → DVal
  | .leafN _ _ v => .scalar v
  | .branchN _ a cs =>
      if a.isEmpty then .map (asDictAcc [] cs)
      else .map (dictMerge (attrD a) (asDictAcc [] cs))

/-- The `result` accumulation loop of `TreeStore.as_dict`:
`result[label] = projection(node)` over the nodes in order. -/
def asDictAcc : List (String × DVal) → List TSNode → List (String × DVal)
  | acc, [] => acc
  | acc, n :: rest => asDictAcc (aset acc n.label (projNode n)) rest

end

/-- `TreeStore.as_dict`. -/
def as_dict (ns : List TSNode) : List (String × DVal) :=
  asDictAcc [] ns

/-- Python `s.startswith(pre)`, modelled on the character lists. -/
def startsWithPy (s pre : String) : Bool :=
  pre.data.isPrefixOf s.data

/-- `TreeStoreBuilder._generate_label`: count the existing nodes at the current
level whose label equals `tag` or starts with `tag ++ "_"`; label is
`tag_{count}` (the empty case yielding `tag_0`). -/
def _generate_label (ns : List TSNode) (tag : String) : String :=
  let existing := ns.filter
    (fun n => n.label = tag || startsWithPy n.label (tag ++ "_"))
  if existing.isEmpty then tag ++ "_0"
  else tag ++ "_" ++ toString existing.length

/-- Navigate from a store down a list of labels, entering branch nodes;
`none` when the path does not denote a branch chain. -/
def storeAt : List TSNode → List String → Option (List TSNode)
  | ns, [] => some ns
  | ns, l :: rest =>
      match ns.find? (fun n => n.label = l) with
      | some (.branchN _ _ cs) => storeAt cs rest
      | _ => none

/-- The node list of the store reached by a path (empty for broken paths;
builder-reachable paths are always intact). -/
def nodesAt (ns : List TSNode) (path : List String) : List TSNode :=
  (storeAt ns path).getD []

/-- Apply `f` to the node list of the store reached by the path, rebuilding
the tree along the way. -/
def modifyAt : List TSNode → List String → (List TSNode → List TSNode) → List TSNode
  | ns, [], f => f ns
  | ns, l :: rest, f =>
      ns.map (fun n =>
        match n with
        | .branchN lbl a cs =>
            if lbl = l then .branchN lbl a (modifyAt cs rest f) else n
        | m => m)

/-! ### The back-reference chain and `TreeStore.depth`

`TreeStore.depth` in the source only inspects `self.parent`
(the `TreeStoreNode` holding this store, or `None`) and `self.parent.parent`
(the store owning that node, or `None`).  `ParentChain` captures exactly that
shape: `root` is a store with no back-reference; `link g` is a store whose
back-reference node exists, `g` being the chain of the store owning that node
(`none` when the node is detached). -/
inductive ParentChain where
  | root
  | link (grand : Option ParentChain)

/-- `TreeStore.depth`: `0` with no back-reference; otherwise
`parent.parent.depth + 1` if the back-reference node has an owning store,
else `1`. -/
def ParentChain.depth : ParentChain → Nat
  | .root => 0
  | .link none => 1
  | .link (some pc) => pc.depth + 1

/-- The chain effect of `TreeStore.add_branch`: the child store's
back-reference is the fresh node, whose owning store is the parent store. -/
def add_branch_chain (pc : ParentChain) : ParentChain :=
  .link (some pc)

/-- The back-reference chain of the builder cursor designated by a path of
labels (cursor label first, root last): each level is a store created by
`add_branch` under the level above. -/
def chainOfPath : List String → ParentChain
  | [] => .root
  | _ :: rest => add_branch_chain (chainOfPath rest)

theorem depth_chainOfPath (p : List String) :
    (chainOfPath p).depth = p.length := by
  induction p with
  | nil => rfl
  | cons _ rest ih => simp [chainOfPath, add_branch_chain, ParentChain.depth, ih]

/-! ### Cardinality specifications (`_parse_cardinality`, `valid_children`) -/

/-- A value handed to `_parse_cardinality`: a Python `bool`, `int`, `str`, or
anything else (`other`).  In Python, `bool` is a subtype of `int`. -/
inductive CardSpec where
  | b (v : Bool)
  | i (n : Int)
  | s (v : String)
  | other
deriving DecidableEq, Repr

/-- `isinstance(spec, int)` together with the integer value: Python booleans
are integers (`False == 0`, `True == 1`). -/
def CardSpec.pyIntVal : CardSpec → Option Int
  | .b false => some 0
  | .b true => some 1
  | .i n => some n
  | _ => none

/-- The value of a decimal digit character (`none` for non-digits); codepoint
48 is `0` and 57 is `9`. -/
def digitVal (c : Char) : Option Nat :=
  let n := c.toNat
  if 48 ≤ n ∧ n ≤ 57 then some (n - 48) else none

/-- A non-empty run of decimal digits as a natural number. -/
def parseNatDigits (cs : List Char) : Option Nat :=
  if cs.isEmpty then none
  else cs.foldl
    (fun acc c =>
      match acc, digitVal c with
      | some a, some d => some (a * 10 + d)
      | _, _ => none)
    (some 0)

/-- Python `int(s)` on the character list: an optional sign followed by
digits (whitespace/underscore tolerance of CPython is not modelled; the
specs exercised here never use them). -/
def pyIntChars : List Char → Option Int
  | '-' :: rest => (parseNatDigits rest).map (fun n => -(n : Int))
  | '+' :: rest => (parseNatDigits rest).map (fun n => (n : Int))
  | cs => (parseNatDigits cs).map (fun n => (n : Int))

/-- Python `int(s)`, `ValueError` as `Except.error`. -/
def pyInt (cs : List Char) : Except String Int :=
  match pyIntChars cs with
  | some n => Except.ok n
  | none => Except.error ("invalid literal for int: " ++ String.mk cs)

/-- Python `s.split(sep)` for a one-character separator, on the character
list: always at least one part, `n` separators giving `n + 1` parts. -/
def splitCh (sep : Char) : List Char → List (List Char)
  | [] => [[]]
  | x :: rest =>
      let r := splitCh sep rest
      if x = sep then [] :: r
      else
        match r with
        | [] => [[x]]
        | h :: t => (x :: h) :: t

/-- `_parse_cardinality`: `True` ⇒ `(0, unbounded)`; any other int (including
`False`) ⇒ `(n, n)`; a non-string non-int raises `ValueError`; a string with
no colon parses as an exact count; `"min:max"` with empty parts defaulting to
`0` / unbounded. `(min, max)` with `max = none` meaning unbounded. -/
def _parse_cardinality (spec : CardSpec) : Except String (Int × Option Int) :=
  if spec = CardSpec.b true then Except.ok (0, none)
  else
    match spec.pyIntVal with
    | some n => Except.ok (n, n)
    | none =>
      match spec with
      | .s v =>
          if !v.data.contains ':' then do
            let n ← pyInt v.data
            Except.ok (n, n)
          else
            let parts := splitCh ':' v.data
            let p0 := (parts.get? 0).getD []
            let p1 := (parts.get? 1).getD []
            do
              let minVal ← if p0.isEmpty then Except.ok 0 else pyInt p0
              let maxVal ← if p1.isEmpty then Except.ok none
                           else (pyInt p1).map Option.some
              Except.ok (minVal, maxVal)
      | _ => Except.error "Invalid cardinality spec"

/-- A parsed rule table: child tag → `(min, max)`. -/
abbrev RuleTable := List (String × Int × Option Int)

/-- The `valid_children` decorator: bare positional tags each get
`(0, unbounded)`, then named constraints are parsed and override; a parse
failure is a registration-time error. -/
def valid_children (allowed : List String) (constraints : List (String × CardSpec)) :
    Except String RuleTable :=
  constraints.foldlM
    (fun acc p => do
      let c ← _parse_cardinality p.2
      Except.ok (aset acc p.1 c))
    (allowed.map (fun tag => (tag, ((0 : Int), (none : Option Int)))))

/-! ### The builder (`TreeStoreBuilder`) -/

/-- The error conditions raised by the builder. -/
inductive TSError where
  | invalidChild (tag : String)
  | missingChild (tag : String) (required : Int) (found : Nat)
  | tooManyChildren (tag : String) (maxCount : Int) (found : Nat)
  | valueError (msg : String)
deriving DecidableEq, Repr

/-- The static part of a builder subtype: `ALLOWED_TAGS` and the map from a
builder-method name to the `_valid_children` table attached to it (absent when
there is no such method or it carries no table). -/
structure Rules where
  allowedTags : Option (List String)
  tables : List (String × RuleTable)

/-- The mutable session state of a `TreeStoreBuilder`: the root store
(`_store`), the cursor as a label path from the root (`_current`), the open
tag stack (`_tag_stack`, top first), and `_child_counts : depth → tag → count`. -/
structure BState where
  store : List TSNode
  path : List String
  tagStack : List String
  childCounts : List (Nat × List (String × Nat))
deriving Repr

/-- `TreeStoreBuilder.__init__`: empty root store, cursor at root, empty tag
stack and child-count table. -/
def initBuilder : BState :=
  { store := [], path := [], tagStack := [], childCounts := [] }

/-- The depth of the cursor store, as computed by `TreeStore.depth` on its
back-reference chain. -/
def curDepth (st : BState) : Nat :=
  (chainOfPath st.path).depth

/-- `self._child_counts.get(depth, {}).get(tag, 0)`. -/
def countAt (cc : List (Nat × List (String × Nat))) (d : Nat) (tag : String) : Nat :=
  (aget ((aget cc d).getD []) tag).getD 0

/-- `_get_child_count`: the count for `tag` at the cursor depth (0 default). -/
def _get_child_count (st : BState) (tag : String) : Nat :=
  countAt st.childCounts (curDepth st) tag

/-- `_increment_child_count`: bump the count for `tag` at depth `d`. -/
def ccInc (cc : List (Nat × List (String × Nat))) (d : Nat) (tag : String) :
    List (Nat × List (String × Nat)) :=
  let m := (aget cc d).getD []
  aset cc d (aset m tag ((aget m tag).getD 0 + 1))

/-- `_init_child_counts`: create an empty count map for depth `d` only when
the depth has no entry yet (NOT a reset). -/
def ccInit (cc : List (Nat × List (String × Nat))) (d : Nat) :
    List (Nat × List (String × Nat)) :=
  if (aget cc d).isSome then cc else aset cc d []

/-- `_get_current_tag`: the top of the tag stack. -/
def _get_current_tag (st : BState) : Option String :=
  st.tagStack.head?

/-- `_get_valid_children`: the table attached to the builder method named by
the current tag, when both exist. -/
def _get_valid_children (R : Rules) (st : BState) : Option RuleTable :=
  match _get_current_tag st with
  | none => none
  | some tag => aget R.tables tag

/-- `_validate_child`: whitelist check, then membership in the active table,
then the max-count check against the depth-scoped count. -/
def _validate_child (R : Rules) (st : BState) (tag : String) : Option TSError :=
  if (match R.allowedTags with
      | some l => !l.contains tag
      | none => false) then
    some (.invalidChild tag)
  else
    match _get_valid_children R st with
    | none => none
    | some valid =>
      match aget valid tag with
      | none => some (.invalidChild tag)
      | some (_, maxCount) =>
        match maxCount with
        | some m =>
            if (_get_child_count st tag : Int) ≥ m then
              some (.tooManyChildren tag m (_get_child_count st tag))
            else none
        | none => none

/-- The iteration inside `_validate_mandatory_children`: first tag of the
table with `min > 0` whose depth-scoped count falls short. -/
def firstMissing (st : BState) : RuleTable → Option TSError
  | [] => none
  | (tag, minCount, _) :: rest =>
      if minCount > 0 && (_get_child_count st tag : Int) < minCount then
        some (.missingChild tag minCount (_get_child_count st tag))
      else firstMissing st rest

/-- `_validate_mandatory_children`. -/
def _validate_mandatory_children (R : Rules) (st : BState) : Option TSError :=
  match _get_valid_children R st with
  | none => none
  | some valid => firstMissing st valid

/-- `label = _name or self._generate_label(tag)` (an empty-string `_name` is
falsy and falls back to the generated label). -/
def labelFor (ns : List TSNode) (tag : String) (name : Option String) : String :=
  match name with
  | some n => if n = "" then _generate_label ns tag else n
  | none => _generate_label ns tag

/-- `TreeStoreBuilder.branch`: validate, bump the depth-scoped count, label,
insert a fresh branch under the cursor, descend into it, push the tag, and
init (not reset) the count map of the new depth. -/
def branch (R : Rules) (st : BState) (tag : String) (name : Option String)
    (attr : Attrs) : Except TSError BState :=
  match _validate_child R st tag with
  | some e => Except.error e
  | none =>
    let cc := ccInc st.childCounts (curDepth st) tag
    let label := labelFor (nodesAt st.store st.path.reverse) tag name
    let store := modifyAt st.store st.path.reverse
      (fun ns => insertNode ns (.branchN label attr []))
    let path := label :: st.path
    Except.ok
      { store := store, path := path, tagStack := tag :: st.tagStack,
        childCounts := ccInit cc ((chainOfPath path).depth) }

/-- `TreeStoreBuilder.leaf`: validate, bump the depth-scoped count, label,
insert a scalar node under the cursor; the cursor does not move. -/
def leaf (R : Rules) (st : BState) (tag : String) (value : Scalar)
    (name : Option String) (attr : Attrs) : Except TSError BState :=
  match _validate_child R st tag with
  | some e => Except.error e
  | none =>
    let cc := ccInc st.childCounts (curDepth st) tag
    let label := labelFor (nodesAt st.store st.path.reverse) tag name
    let store := modifyAt st.store st.path.reverse
      (fun ns => insertNode ns (.leafN label attr value))
    Except.ok { st with store := store, childCounts := cc }

/-- `TreeStoreBuilder.up`: error at root; otherwise validate mandatory
children, move the cursor to the grandparent store, pop the tag stack. -/
def up (R : Rules) (st : BState) : Except TSError BState :=
  match st.path with
  | [] => Except.error (.valueError "Already at root level")
  | _ :: rest =>
    match _validate_mandatory_children R st with
    | some e => Except.error e
    | none =>
        Except.ok { st with path := rest, tagStack := st.tagStack.tail }

/-- The `while self._current.parent is not None` loop of
`TreeStoreBuilder.build`: the explicit first argument is the cursor path,
always equal to `st.path`. -/
def buildFrom (R : Rules) : List String → BState → Except TSError (List TSNode)
  | [], st => Except.ok st.store
  | _ :: rest, st =>
    match _validate_mandatory_children R st with
    | some e => Except.error e
    | none =>
        buildFrom R rest { st with path := rest, tagStack := st.tagStack.tail }

/-- `TreeStoreBuilder.build`: unwind the cursor to the root, validating
mandatory children at every level passed through, and return the root store. -/
def build (R : Rules) (st : BState) : Except TSError (List TSNode) :=
  buildFrom R st.path st

/-! ### General lemmas about the dict model and the builder -/

theorem aget_aset_same {K V : Type} [DecidableEq K] (m : List (K × V)) (k : K) (v : V) :
    aget (aset m k v) k = some v := by
  induction m with
  | nil => simp [aget, aset]
  | cons p rest ih =>
    obtain ⟨k', v'⟩ := p
    by_cases h : k' = k
    · simp [aget, aset, h]
    · simp [aget, aset, h, ih]

theorem aget_aset_ne {K V : Type} [DecidableEq K] (m : List (K × V)) (k k' : K) (v : V)
    (h : k ≠ k') : aget (aset m k v) k' = aget m k' := by
  induction m with
  | nil => simp [aget, aset, h]
  | cons p rest ih =>
    obtain ⟨k₀, v₀⟩ := p
    by_cases h₀ : k₀ = k
    · subst h₀
      simp [aget, aset, h]
    · by_cases h₁ : k₀ = k'
      · subst h₁
        simp [aget, aset, Ne.symm h]
      · simp [aget, aset, h₀, h₁, ih]

theorem aget_eq_none_of_not_mem {K V : Type} [DecidableEq K] (m : List (K × V)) (k : K)
    (h : k ∉ m.map Prod.fst) : aget m k = none := by
  induction m with
  | nil => rfl
  | cons p rest ih =>
    simp only [List.map_cons, List.mem_cons] at h
    push_neg at h
    simpa [aget, Ne.symm h.1] using ih h.2

/-- Lookup through a Python dict merge `{**a, **b}`: a key found in `b` takes
`b`'s value (child keys override), otherwise `a`'s value survives. -/
theorem aget_dictMerge {K V : Type} [DecidableEq K] (a b : List (K × V)) (k : K)
    (hb : (b.map Prod.fst).Nodup) :
    aget (dictMerge a b) k =
      match aget b k with
      | some v => some v
      | none => aget a k := by
  induction b generalizing a with
  | nil => simp [dictMerge, aget]
  | cons p rest ih =>
    obtain ⟨k₀, v₀⟩ := p
    simp only [List.map_cons, List.nodup_cons] at hb
    have hmerge : dictMerge a ((k₀, v₀) :: rest) = dictMerge (aset a k₀ v₀) rest := by
      simp [dictMerge]
    rw [hmerge, ih _ hb.2]
    by_cases h : k₀ = k
    · subst h
      rw [aget_eq_none_of_not_mem rest k₀ hb.1]
      simp [aget, aget_aset_same]
    · simp [aget, h, aget_aset_ne _ _ _ _ h]

/-- A successful `build` returns the session's root store unchanged. -/
theorem buildFrom_ok (R : Rules) (p : List String) (st : BState) (t : List TSNode)
    (h : buildFrom R p st = Except.ok t) : t = st.store := by
  induction p generalizing st with
  | nil =>
    simp only [buildFrom] at h
    exact (Except.ok.inj h).symm
  | cons l rest ih =>
    simp only [buildFrom] at h
    split at h
    · cases h
    · have hr := ih _ h
      exact hr

/-- `_generate_label` always produces `tag_{n}` with `n` the number of
existing same-level nodes whose label is `tag` or starts with `tag ++ "_"`
(the two source branches agree on the empty case, since `len([]) = 0`). -/
theorem generate_label_eq (ns : List TSNode) (tag : String) :
    _generate_label ns tag = tag ++ "_" ++ toString
      (ns.filter (fun n => n.label = tag || startsWithPy n.label (tag ++ "_"))).length := by
  simp only [_generate_label]
  by_cases h : (ns.filter (fun n => n.label = tag || startsWithPy n.label (tag ++ "_"))).isEmpty
  · rw [if_pos h]
    rw [List.isEmpty_iff] at h
    rw [h]
    rw [String.append_assoc]
    rfl
  · rw [if_neg h]

/-- `_init_child_counts` never changes the counts visible at the depth it
touches: it only materialises an empty map when the depth was absent. -/
theorem ccInit_get (cc : List (Nat × List (String × Nat))) (d : Nat) :
    (aget (ccInit cc d) d).getD [] = (aget cc d).getD [] := by
  simp only [ccInit]
  by_cases h : (aget cc d).isSome
  · rw [if_pos h]
  · rw [if_neg h]
    rw [aget_aset_same]
    rw [Option.not_isSome_iff_eq_none] at h
    rw [h]
    rfl

/-- Descending one level adds exactly one to the cursor's depth. -/
theorem chain_depth_cons (l : String) (p : List String) :
    (chainOfPath (l :: p)).depth = (chainOfPath p).depth + 1 := rfl

/-- When the active table caps a tag at max `0`, `_validate_child` always
fails with `TooManyChildren` (any count is `≥ 0`). -/
theorem validate_child_max_zero
    (R : Rules) (st : BState) (tag : String) (valid : RuleTable)
    (hA : R.allowedTags = none)
    (hv : _get_valid_children R st = some valid)
    (ht : aget valid tag = some (0, some 0)) :
    _validate_child R st tag =
      some (.tooManyChildren tag 0 (_get_child_count st tag)) := by
  simp [_validate_child, hA, hv, ht, Int.natCast_nonneg]

/-- `_parse_cardinality` on a plain integer spec: exact count `(n, n)`. -/
theorem parse_int_spec (n : Int) :
    _parse_cardinality (.i n) = Except.ok (n, some n) := by
  simp [_parse_cardinality, CardSpec.pyIntVal]

/-- `_parse_cardinality` on a colon-free numeric string: exact count. -/
theorem parse_nocolon (s : String) (n : Int)
    (h1 : ':' ∉ s.data) (h2 : pyIntChars s.data = some n) :
    _parse_cardinality (.s s) = Except.ok (n, some n) := by
  simp only [_parse_cardinality, CardSpec.pyIntVal, h1, pyInt, h2]
  simp [h1]
  rfl

/-- `valid_children` on a bare tag list: every tag gets `(0, unbounded)`. -/
theorem valid_children_bare (tags : List String) :
    valid_children tags [] =
      Except.ok (tags.map fun t => (t, ((0 : Int), (none : Option Int)))) := rfl

/-- `as_dict` projection of a leaf node: the scalar value directly. -/
theorem projNode_leaf (l : String) (a : Attrs) (v : Scalar) :
    projNode (.leafN l a v) = .scalar v := rfl

/-- `as_dict` projection of a branch node without attributes: the child
mapping alone. -/
theorem projNode_branch_noattr (l : String) (cs : List TSNode) :
    projNode (.branchN l [] cs) = .map (as_dict cs) := by
  simp [projNode, as_dict]

/-- `as_dict` projection of a branch node with attributes: the merge of the
attribute dict and the child mapping. -/
theorem projNode_branch_attr (l : String) (a : Attrs) (cs : List TSNode) (h : a ≠ []) :
    projNode (.branchN l a cs) = .map (dictMerge (attrD a) (as_dict cs)) := by
  simp [projNode, as_dict, h]

/-! ### Concrete builder sessions used by the claims -/

/-- The base `TreeStoreBuilder`: no `ALLOWED_TAGS`, no method carries a
`_valid_children` table. -/
def noRules : Rules := { allowedTags := none, tables := [] }

/-- A builder whose `sec` method declares `@valid_children(x='0:2')`. -/
def secRules : Rules :=
  { allowedTags := none, tables := [("sec", [("x", (0, some 2))])] }

/-- Open `sec`, add two `x` leaves, close it, then open a sibling `sec`:
the second `sec` scope is freshly opened and empty. -/
def c1_reopened : Except TSError BState :=
  (branch secRules initBuilder "sec" none []) >>= (fun s =>
  leaf secRules s "x" (Scalar.int 1) none []) >>= (fun s =>
  leaf secRules s "x" (Scalar.int 2) none []) >>= (fun s =>
  up secRules s) >>= (fun s =>
  branch secRules s "sec" none [])

/-- The state produced by one `branch("a")` call on a fresh base builder. -/
def c1w_state : BState :=
  { store := [TSNode.branchN "a_0" [] []], path := ["a_0"], tagStack := ["a"],
    childCounts := [(0, [("a", 1)]), (1, [])] }

/-- A builder whose `document` method declares
`@valid_children(title='1', body='1')`. -/
def docRules : Rules :=
  { allowedTags := none,
    tables := [("document", [("title", (1, some 1)), ("body", (1, some 1))])] }

/-- Open `document`, add only `title`, then call `build()` with the scope
still open. -/
def c2run : Except TSError (List TSNode) :=
  (branch docRules initBuilder "document" none []) >>= (fun s =>
  leaf docRules s "title" (Scalar.str "My Doc") none []) >>= (fun s =>
  build docRules s)

/-- `root → branch("user", name="alice") → leaf("email", "a@x.com",
name="contact") → closeBranch() → finish()`, projected by `as_dict`. -/
def c3run : Except TSError (List (String × DVal)) :=
  ((branch noRules initBuilder "user" (some "alice") []) >>= (fun s =>
   leaf noRules s "email" (Scalar.str "a@x.com") (some "contact") []) >>= (fun s =>
   up noRules s) >>= (fun s => build noRules s)).map as_dict

/-- A builder whose `container` method declares `@valid_children(item='0:2')`. -/
def containerRules : Rules :=
  { allowedTags := none, tables := [("container", [("item", (0, some 2))])] }

/-- Open `container` and add two `item` leaves (both succeed). -/
def c4two : Except TSError BState :=
  (branch containerRules initBuilder "container" none []) >>= (fun s =>
  leaf containerRules s "item" (Scalar.str "first") none []) >>= (fun s =>
  leaf containerRules s "item" (Scalar.str "second") none [])

/-- Three unnamed `leaf("item", …)` calls at the same (root) scope. -/
def c5run : Except TSError BState :=
  (leaf noRules initBuilder "item" (Scalar.int 1) none []) >>= (fun s =>
  leaf noRules s "item" (Scalar.int 2) none []) >>= (fun s =>
  leaf noRules s "item" (Scalar.int 3) none [])

/-- A builder whose `c` method registered `x` with spec `False`,
parsed to `(0, 0)`. -/
def falseSpecRules : Rules :=
  { allowedTags := none, tables := [("c", [("x", (0, some 0))])] }

/-- The state produced by `branch("c")` on a fresh `falseSpecRules` builder. -/
def falseSpecState : BState :=
  { store := [TSNode.branchN "c_0" [] []], path := ["c_0"], tagStack := ["c"],
    childCounts := [(0, [("c", 1)]), (1, [])] }

/-! ### The claims -/

/-- Claim C1 is false on the code: after closing a `sec` scope that added two
`x` children and opening a fresh sibling `sec` scope at the same depth, the
fresh scope has no children of its own, yet the count used for cardinality
validation is `2`, not `0`, and the very first `x` insertion in the fresh
scope fails with `TooManyChildren` — children of the earlier sibling scope do
count toward the new scope's maxima. -/
theorem c1_counterexample :
    (c1_reopened.map (fun s => nodesAt s.store s.path.reverse) = Except.ok []) ∧
    (c1_reopened.map (fun s => _get_child_count s "x") = Except.ok 2) ∧
    ((c1_reopened >>= fun s => leaf secRules s "x" (Scalar.int 3) none []) =
      Except.error (TSError.tooManyChildren "x" 2 2)) :=
  ⟨rfl, rfl, rfl⟩

/-- Claim C1, amended: opening a branch initialises the child-count tracker
for the newly entered depth only when that depth has never been used in the
session; the counts visible for cardinality validation in the fresh scope
equal whatever the session had already recorded at that depth (zero only for
a never-entered depth), so children added in an earlier sibling scope at the
same depth do count toward the new scope's per-tag maxima and minima. -/
theorem c1_branch_keeps_depth_counts
    (R : Rules) (st : BState) (tag : String) (name : Option String) (attr : Attrs)
    (st' : BState) (h : branch R st tag name attr = Except.ok st') (t : String) :
    _get_child_count st' t = countAt st.childCounts (curDepth st + 1) t := by
  simp only [branch] at h
  split at h
  · cases h
  · have hst := (Except.ok.inj h).symm
    subst hst
    simp only [_get_child_count, countAt, curDepth, chain_depth_cons]
    rw [ccInit_get]
    simp only [ccInc]
    rw [aget_aset_ne]
    simp

/-- Closed instance of `c1_branch_keeps_depth_counts` at a concrete session:
one `branch("a")` call on a fresh builder. -/
theorem c1_witness :
    _get_child_count c1w_state "x" =
      countAt initBuilder.childCounts (curDepth initBuilder + 1) "x" :=
  c1_branch_keeps_depth_counts noRules initBuilder "a" none [] c1w_state rfl "x"

/-- Claim C2: `build()` on a builder with unclosed scopes auto-unwinds to
the root, validating mandatory children at every level it passes through —
opening `document` (requiring `title` and `body`), adding only `title`, and
calling `build()` without `up()` raises `MissingChild` for `body` — and a
successful `build()` returns the session's root store. -/
theorem c2_build_auto_unwinds :
    (c2run = Except.error (TSError.missingChild "body" 1 0)) ∧
    (∀ (R : Rules) (st : BState) (t : List TSNode),
       build R st = Except.ok t → t = st.store) :=
  ⟨rfl, fun R st t h => buildFrom_ok R st.path st t h⟩

/-- Closed instance of `c2_build_auto_unwinds`: `build()` on a fresh builder
succeeds and returns its (empty) root store. -/
theorem c2_witness : ([] : List TSNode) = initBuilder.store :=
  c2_build_auto_unwinds.2 noRules initBuilder [] rfl

/-- Claim C3: the end-to-end session `branch("user", name="alice") →
leaf("email", "a@x.com", name="contact") → up() → build()` yields a store
whose `as_dict` is `{"alice": {"contact": "a@x.com"}}`. -/
theorem c3_end_to_end :
    c3run = Except.ok
      [("alice", DVal.map [("contact", DVal.scalar (Scalar.str "a@x.com"))])] :=
  rfl

/-- Claim C4: under `{item: (0, 2)}`, the first two `item` insertions
succeed and are committed (`item_0`, `item_1` present in the store), and the
third raises `TooManyChildren` without any mutation — the failing call
returns only the error and the previously built state is untouched. -/
theorem c4_max_children :
    (c4two.map (fun s => s.store) = Except.ok
      [TSNode.branchN "container_0" []
        [TSNode.leafN "item_0" [] (Scalar.str "first"),
         TSNode.leafN "item_1" [] (Scalar.str "second")]]) ∧
    ((c4two >>= fun s => leaf containerRules s "item" (Scalar.str "third") none []) =
      Except.error (TSError.tooManyChildren "item" 2 2)) :=
  ⟨rfl, rfl⟩

/-- Claim C5: an auto-generated label for `tag` is always `tag_{n}` with `n`
the number of existing same-level nodes whose label equals `tag` or starts
with `tag ++ "_"`; consequently three unnamed `leaf("item", …)` calls at one
scope produce the distinct labels `item_0`, `item_1`, `item_2` in call
order. -/
theorem c5_auto_labels :
    (∀ (ns : List TSNode) (tag : String),
      _generate_label ns tag = tag ++ "_" ++ toString
        (ns.filter (fun n => n.label = tag || startsWithPy n.label (tag ++ "_"))).length) ∧
    (c5run.map (fun s => s.store.map TSNode.label) =
      Except.ok ["item_0", "item_1", "item_2"]) ∧
    (("item_0" : String) ≠ "item_1" ∧ ("item_0" : String) ≠ "item_2" ∧
     ("item_1" : String) ≠ "item_2") :=
  ⟨generate_label_eq, rfl, by decide⟩

/-- Claim C6: `as_dict` projects a leaf node to its scalar value directly; a
branch node with attributes to the merge of its attribute dict with the
recursively projected child mapping, where a key present among the children
overrides a same-named attribute key; and a branch node without attributes
to the child mapping alone. -/
theorem c6_as_dict_projection :
    (∀ (l : String) (a : Attrs) (v : Scalar),
      projNode (TSNode.leafN l a v) = DVal.scalar v) ∧
    (∀ (l : String) (cs : List TSNode),
      projNode (TSNode.branchN l [] cs) = DVal.map (as_dict cs)) ∧
    (∀ (l : String) (a : Attrs) (cs : List TSNode), a ≠ [] →
      projNode (TSNode.branchN l a cs) = DVal.map (dictMerge (attrD a) (as_dict cs))) ∧
    (∀ (a b : List (String × DVal)) (k : String), (b.map Prod.fst).Nodup →
      aget (dictMerge a b) k =
        match aget b k with
        | some v => some v
        | none => aget a k) :=
  ⟨projNode_leaf, projNode_branch_noattr, projNode_branch_attr,
   fun a b k hb => by rw [aget_dictMerge a b k hb]; cases aget b k <;> rfl⟩

/-- Closed instance of `c6_as_dict_projection`: a branch with one attribute
merges it under the children, and a child key overrides a same-named
attribute key. -/
theorem c6_witness :
    (projNode (TSNode.branchN "d" [("id", Scalar.int 1)]
        [TSNode.leafN "x" [] (Scalar.int 2)]) =
      DVal.map (dictMerge (attrD [("id", Scalar.int 1)])
        (as_dict [TSNode.leafN "x" [] (Scalar.int 2)]))) ∧
    (aget (dictMerge [("k", DVal.scalar (Scalar.int 1))]
        [("k", DVal.scalar (Scalar.int 2))]) "k" =
      match aget [("k", DVal.scalar (Scalar.int 2))] "k" with
      | some v => some v
      | none => aget [("k", DVal.scalar (Scalar.int 1))] "k") :=
  ⟨c6_as_dict_projection.2.2.1 "d" [("id", Scalar.int 1)]
      [TSNode.leafN "x" [] (Scalar.int 2)] (by decide),
   c6_as_dict_projection.2.2.2 [("k", DVal.scalar (Scalar.int 1))]
      [("k", DVal.scalar (Scalar.int 2))] "k" (by decide)⟩

/-- Claim C7: cardinality parsing — `True` ⇒ `(0, unbounded)`; integer `n` ⇒
`(n, n)`; a colon-free numeric string ⇒ `(n, n)`; `"min:max"` with empty min
meaning `0` and empty max meaning unbounded; bare positionally listed tags
each get `(0, unbounded)`; a non-string/non-int/non-bool spec is a
registration-time error. -/
theorem c7_parse_cardinality :
    (_parse_cardinality (CardSpec.b true) = Except.ok (0, none)) ∧
    (∀ n : Int, _parse_cardinality (CardSpec.i n) = Except.ok (n, some n)) ∧
    (∀ (s : String) (n : Int), ':' ∉ s.data → pyIntChars s.data = some n →
      _parse_cardinality (CardSpec.s s) = Except.ok (n, some n)) ∧
    (_parse_cardinality (CardSpec.s "1:3") = Except.ok (1, some 3)) ∧
    (_parse_cardinality (CardSpec.s ":5") = Except.ok (0, some 5)) ∧
    (_parse_cardinality (CardSpec.s "2:") = Except.ok (2, none)) ∧
    (∀ tags : List String, valid_children tags [] =
      Except.ok (tags.map fun t => (t, ((0 : Int), (none : Option Int))))) ∧
    (_parse_cardinality CardSpec.other = Except.error "Invalid cardinality spec") :=
  ⟨rfl, parse_int_spec, parse_nocolon, rfl, rfl, rfl, valid_children_bare, rfl⟩

/-- Closed instance of `c7_parse_cardinality`: the colon-free numeric string
`"7"` parses to the exact count `(7, 7)`. -/
theorem c7_witness :
    _parse_cardinality (CardSpec.s "7") = Except.ok (7, some 7) :=
  c7_parse_cardinality.2.2.1 "7" 7 (by decide) (by decide)

/-- Claim C8: the depth of a root Tree (no back-reference) is `0`, and the
chain built by `add_branch` gives every child store a depth one more than
its parent store's depth; the builder cursor at nesting level `n` therefore
has depth `n`. -/
theorem c8_depth :
    ParentChain.depth ParentChain.root = 0 ∧
    (∀ pc : ParentChain, (add_branch_chain pc).depth = pc.depth + 1) ∧
    (∀ p : List String, (chainOfPath p).depth = p.length) :=
  ⟨rfl, fun _ => rfl, depth_chainOfPath⟩

/-- Claim C9: the spec `False` is not rejected — Python booleans are ints,
so it parses to `(0, 0)`; a tag registered with it lands in the rule table;
and with max `0` every `leaf`/`branch` insertion of that tag fails with
`TooManyChildren`. -/
theorem c9_false_spec :
    (_parse_cardinality (CardSpec.b false) = Except.ok (0, some 0)) ∧
    (∀ tag : String, valid_children [] [(tag, CardSpec.b false)] =
      Except.ok [(tag, (0, some 0))]) ∧
    (∀ (R : Rules) (st : BState) (tag : String) (v : Scalar)
       (name : Option String) (attr : Attrs) (valid : RuleTable),
      R.allowedTags = none →
      _get_valid_children R st = some valid →
      aget valid tag = some (0, some 0) →
      leaf R st tag v name attr =
        Except.error (TSError.tooManyChildren tag 0 (_get_child_count st tag)) ∧
      branch R st tag name attr =
        Except.error (TSError.tooManyChildren tag 0 (_get_child_count st tag))) := by
  refine ⟨rfl, fun tag => rfl, ?_⟩
  intro R st tag v name attr valid hA hv ht
  have hvc := validate_child_max_zero R st tag valid hA hv ht
  constructor
  · simp [leaf, hvc]
  · simp [branch, hvc]

/-- Closed instance of `c9_false_spec`: inside a `c` scope whose table maps
`x` to `(0, 0)`, inserting an `x` leaf fails with `TooManyChildren`. -/
theorem c9_witness :
    leaf falseSpecRules falseSpecState "x" (Scalar.int 1) none [] =
      Except.error (TSError.tooManyChildren "x" 0 0) :=
  (c9_false_spec.2.2 falseSpecRules falseSpecState "x" (Scalar.int 1) none []
    [("x", (0, some 0))] rfl rfl rfl).1

/-- Claim C10: `TreeStore.depth` on a store whose back-reference node exists
but is itself detached (no containing store) returns `1` — it does not raise
and does not return `0`; the embedding is a total function on every parent
chain. -/
theorem c10_detached_depth :
    ParentChain.depth (ParentChain.link none) = 1 ∧
    ParentChain.depth (ParentChain.link none) ≠ 0 :=
  ⟨rfl, by decide⟩

end TreeStorePy
